import Mathlib

/-!
Verification of `client_example.py`, a minimal command-line JSON-RPC test
client for an external "MCP" trading server.  The client builds one of five
fixed request shapes, launches the server as a subprocess, writes the request
followed by a newline, waits with a 30-second timeout, and then reports the
captured standard output / standard error.

The external subprocess is an opaque collaborator: here it is abstracted as
the `TransportResult` (captured stdout and stderr text) that the call to
`proc.communicate` returns.  Everything else — the JSON values, the request
construction, Python's `json.loads` / `json.dumps`, `str.strip`,
`str.lower`, substring containment, and the command dispatch of `main` — is
embedded executably below, translated from the source.
-/

/-- JSON values as produced by Python's `json.loads`.  Integer-valued JSON
numbers become Python `int` (constructor `num`); numbers with a fraction or
exponent part, and the non-standard literals `NaN` / `Infinity` /
`-Infinity` accepted by `json.loads`, become Python floats — modelled here
by `fnum` carrying the source literal verbatim, since no behaviour of this
client inspects a float's value. -/
inductive Json where
  | null : Json
  | bool : Bool → Json
  | num : Int → Json
  | fnum : String → Json
  | str : String → Json
  | arr : List Json → Json
  | obj : List (String × Json) → Json

/-- Whitespace stripped by Python's `str.strip()` (the ASCII part, which is
all that the client can receive in practice). -/
def pyIsSpace (c : Char) : Bool :=
  c = ' ' || c = '\t' || c = '\n' || c = '\r' || c = '\x0b' || c = '\x0c'

/-- Model of Python's `str.strip()`: drop leading and trailing whitespace. -/
def pyStrip (s : String) : String :=
  ⟨(s.data.dropWhile pyIsSpace).reverse.dropWhile pyIsSpace |>.reverse⟩

/-- Model of Python's `str.lower()` (ASCII case folding, which is what the
claims exercise). -/
def pyLower (s : String) : String :=
  ⟨s.data.map Char.toLower⟩

/-- Model of Python's `needle in haystack` substring test, on char lists. -/
def listHasSub (haystack needle : List Char) : Bool :=
  haystack.tails.any fun t => needle.isPrefixOf t

/-- Model of Python's `needle in haystack` substring test for strings. -/
def strHasSub (haystack needle : String) : Bool :=
  listHasSub haystack.data needle.data

/-- Model of Python truthiness for JSON-decoded values (`bool(x)`): `None`,
`False`, zero, empty string, empty list and empty dict are falsy.  For a
float (`fnum`) the value is falsy when every mantissa digit is `0`; exact
floating-point underflow is outside the model and outside every call site,
since the client only applies truthiness to `None` or non-empty dicts. -/
def jsonTruthy : Json → Bool
  | .null => false
  | .bool b => b
  | .num n => n ≠ 0
  | .fnum raw =>
      (raw.data.takeWhile (fun c => c ≠ 'e' ∧ c ≠ 'E')).any fun c =>
        c.isDigit ∧ c ≠ '0'
  | .str s => s ≠ ""
  | .arr xs => !xs.isEmpty
  | .obj fs => !fs.isEmpty

/-! ### A model of `json.loads`

A fuel-indexed recursive-descent parser over `List Char`, following the JSON
grammar as accepted by Python's `json.loads` in its default (strict) mode:
the full input must be consumed apart from surrounding whitespace, string
literals reject raw control characters, numbers follow the JSON grammar
(no leading zeros, no bare `.5` or `1.`), and the extra literals `NaN`,
`Infinity`, `-Infinity` are accepted as floats. -/

/-- Whitespace skipped by the JSON grammar (`json.loads` skips exactly
space, tab, newline, carriage return between tokens). -/
def jsonWs (c : Char) : Bool :=
  c = ' ' || c = '\t' || c = '\n' || c = '\r'

/-- Skip inter-token whitespace. -/
def skipWs (cs : List Char) : List Char :=
  cs.dropWhile jsonWs

/-- Hex digit value. -/
def hexVal (c : Char) : Option Nat :=
  if '0' ≤ c ∧ c ≤ '9' then some (c.toNat - '0'.toNat)
  else if 'a' ≤ c ∧ c ≤ 'f' then some (c.toNat - 'a'.toNat + 10)
  else if 'A' ≤ c ∧ c ≤ 'F' then some (c.toNat - 'A'.toNat + 10)
  else none

/-- Parse exactly four hex digits. -/
def parseHex4 : List Char → Option (Nat × List Char)
  | a :: b :: c :: d :: rest => do
      let va ← hexVal a
      let vb ← hexVal b
      let vc ← hexVal c
      let vd ← hexVal d
      pure (((va * 16 + vb) * 16 + vc) * 16 + vd, rest)
  | _ => none

/-- Parse the body of a JSON string literal after the opening quote,
handling the escape sequences `json.loads` accepts, including `\uXXXX`
with surrogate-pair combination. -/
def parseStrBody (fuel : Nat) (cs : List Char) (acc : List Char) :
    Option (String × List Char) :=
  match fuel with
  | 0 => none
  | fuel + 1 =>
    match cs with
    | [] => none
    | '"' :: rest => some (⟨acc.reverse⟩, rest)
    | '\\' :: esc :: rest =>
        match esc with
        | '"' => parseStrBody fuel rest ('"' :: acc)
        | '\\' => parseStrBody fuel rest ('\\' :: acc)
        | '/' => parseStrBody fuel rest ('/' :: acc)
        | 'b' => parseStrBody fuel rest ('\x08' :: acc)
        | 'f' => parseStrBody fuel rest ('\x0c' :: acc)
        | 'n' => parseStrBody fuel rest ('\n' :: acc)
        | 'r' => parseStrBody fuel rest ('\r' :: acc)
        | 't' => parseStrBody fuel rest ('\t' :: acc)
        | 'u' =>
            match parseHex4 rest with
            | none => none
            | some (n, rest₁) =>
                if 0xd800 ≤ n ∧ n ≤ 0xdbff then
                  -- possible surrogate pair
                  match rest₁ with
                  | '\\' :: 'u' :: rest₂ =>
                      match parseHex4 rest₂ with
                      | some (m, rest₃) =>
                          if 0xdc00 ≤ m ∧ m ≤ 0xdfff then
                            let cp := 0x10000 + (n - 0xd800) * 0x400 + (m - 0xdc00)
                            parseStrBody fuel rest₃ (Char.ofNat cp :: acc)
                          else
                            parseStrBody fuel rest₁ (Char.ofNat n :: acc)
                      | none => parseStrBody fuel rest₁ (Char.ofNat n :: acc)
                  | _ => parseStrBody fuel rest₁ (Char.ofNat n :: acc)
                else
                  parseStrBody fuel rest₁ (Char.ofNat n :: acc)
        | _ => none
    | c :: rest =>
        if c.toNat < 0x20 then none  -- strict mode rejects raw control chars
        else parseStrBody fuel rest (c :: acc)

/-- Digit run: longest prefix of decimal digits and the rest. -/
def takeDigits (cs : List Char) : List Char × List Char :=
  (cs.takeWhile Char.isDigit, cs.dropWhile Char.isDigit)

/-- Value of a digit run. -/
def digitsVal (ds : List Char) : Nat :=
  ds.foldl (fun acc c => acc * 10 + (c.toNat - '0'.toNat)) 0

/-- Parse the optional fraction part of a JSON number.  A dot not followed
by a digit is malformed (`json.loads` rejects `1.` and `[1.]` alike). -/
def parseFrac : List Char → Option (List Char × List Char)
  | '.' :: r =>
      match takeDigits r with
      | ([], _) => none
      | (ds, r₂) => some ('.' :: ds, r₂)
  | cs => some ([], cs)

/-- Parse the optional exponent part of a JSON number.  An `e` not followed
by digits is malformed (`json.loads` rejects `1e` and `[1e]` alike). -/
def parseExp : List Char → Option (List Char × List Char)
  | e :: r =>
      if e = 'e' ∨ e = 'E' then
        let (sign, r₁) := match r with
          | '+' :: r₂ => (['+'], r₂)
          | '-' :: r₂ => (['-'], r₂)
          | _ => ([], r)
        match takeDigits r₁ with
        | ([], _) => none
        | (ds, r₂) => some (e :: (sign ++ ds), r₂)
      else some ([], e :: r)
  | [] => some ([], [])

/-- Parse a JSON number starting at `cs` (sign already included in `cs`).
Returns the parsed value and remaining input.  Integer literals (no
fraction, no exponent) yield `Json.num`; anything else yields `Json.fnum`
carrying the literal text, mirroring Python's int/float distinction. -/
def parseNumber (cs : List Char) : Option (Json × List Char) :=
  let (neg, cs₁) := match cs with
    | '-' :: rest => (true, rest)
    | _ => (false, cs)
  match takeDigits cs₁ with
  | ([], _) => none
  | (intDs, rest₁) =>
    -- JSON forbids leading zeros: "0" is fine, "01" is not
    if intDs.length > 1 ∧ intDs.headD '0' = '0' then none
    else
      match parseFrac rest₁ with
      | none => none
      | some (fracDs, rest₂) =>
        match parseExp rest₂ with
        | none => none
        | some (expDs, rest₃) =>
          let raw : List Char := (if neg then ['-'] else []) ++ intDs ++ fracDs ++ expDs
          if fracDs = [] ∧ expDs = [] then
            let v : Int := Int.ofNat (digitsVal intDs)
            some (Json.num (if neg then -v else v), rest₃)
          else
            some (Json.fnum ⟨raw⟩, rest₃)

mutual

/-- Parse one JSON value (leading whitespace already skipped). -/
def parseVal (fuel : Nat) (cs : List Char) : Option (Json × List Char) :=
  match fuel with
  | 0 => none
  | fuel + 1 =>
    match cs with
    | 'n' :: 'u' :: 'l' :: 'l' :: rest => some (.null, rest)
    | 't' :: 'r' :: 'u' :: 'e' :: rest => some (.bool true, rest)
    | 'f' :: 'a' :: 'l' :: 's' :: 'e' :: rest => some (.bool false, rest)
    | 'N' :: 'a' :: 'N' :: rest => some (.fnum "NaN", rest)
    | 'I' :: 'n' :: 'f' :: 'i' :: 'n' :: 'i' :: 't' :: 'y' :: rest =>
        some (.fnum "Infinity", rest)
    | '-' :: 'I' :: 'n' :: 'f' :: 'i' :: 'n' :: 'i' :: 't' :: 'y' :: rest =>
        some (.fnum "-Infinity", rest)
    | '"' :: rest =>
        match parseStrBody (rest.length + 1) rest [] with
        | some (s, rest₁) => some (.str s, rest₁)
        | none => none
    | '\x5b' :: rest =>
        let rest₁ := skipWs rest
        match rest₁ with
        | '\x5d' :: rest₂ => some (.arr [], rest₂)
        | _ =>
            match parseArrItems fuel rest₁ with
            | some (xs, rest₂) => some (.arr xs, rest₂)
            | none => none
    | '\x7b' :: rest =>
        let rest₁ := skipWs rest
        match rest₁ with
        | '\x7d' :: rest₂ => some (.obj [], rest₂)
        | _ =>
            match parseObjItems fuel rest₁ with
            | some (fs, rest₂) => some (.obj fs, rest₂)
            | none => none
    | _ => parseNumber cs

/-- Parse the comma-separated items of a non-empty array, consuming the
closing bracket. -/
def parseArrItems (fuel : Nat) (cs : List Char) : Option (List Json × List Char) :=
  match fuel with
  | 0 => none
  | fuel + 1 =>
    match parseVal fuel cs with
    | none => none
    | some (v, rest) =>
        match skipWs rest with
        | ',' :: rest₁ =>
            match parseArrItems fuel (skipWs rest₁) with
            | some (xs, rest₂) => some (v :: xs, rest₂)
            | none => none
        | '\x5d' :: rest₁ => some ([v], rest₁)
        | _ => none

/-- Parse the comma-separated `"key": value` members of a non-empty object,
consuming the closing brace. -/
def parseObjItems (fuel : Nat) (cs : List Char) :
    Option (List (String × Json) × List Char) :=
  match fuel with
  | 0 => none
  | fuel + 1 =>
    match cs with
    | '"' :: rest =>
        match parseStrBody (rest.length + 1) rest [] with
        | none => none
        | some (k, rest₁) =>
            match skipWs rest₁ with
            | ':' :: rest₂ =>
                match parseVal fuel (skipWs rest₂) with
                | none => none
                | some (v, rest₃) =>
                    match skipWs rest₃ with
                    | ',' :: rest₄ =>
                        match parseObjItems fuel (skipWs rest₄) with
                        | some (fs, rest₅) => some ((k, v) :: fs, rest₅)
                        | none => none
                    | '\x7d' :: rest₄ => some ([(k, v)], rest₄)
                    | _ => none
            | _ => none
    | _ => none

end

/-- Model of Python's `json.loads`: parse the whole text as one JSON value,
allowing surrounding whitespace only; any unconsumed trailing input is an
error (Python's "Extra data"), any malformed input is an error.  `none`
models a raised `json.JSONDecodeError`. -/
def jsonLoads (s : String) : Option Json :=
  match parseVal (s.length + 1) (skipWs s.data) with
  | some (j, rest) => if (skipWs rest).isEmpty then some j else none
  | none => none

/-! ### A model of `json.dumps`

With the default options that `send_request` uses: item separator `", "`,
key separator `": "`, `ensure_ascii=True` (non-ASCII characters escaped as
`\uXXXX`, using surrogate pairs beyond the BMP). -/

/-- Hex digit characters. -/
def hexDigit (n : Nat) : Char :=
  if n < 10 then Char.ofNat ('0'.toNat + n)
  else Char.ofNat ('a'.toNat + (n - 10))

/-- Four-digit hex rendering of a code unit, as in `\uXXXX`. -/
def hex4 (n : Nat) : List Char :=
  [hexDigit (n / 4096 % 16), hexDigit (n / 256 % 16), hexDigit (n / 16 % 16),
   hexDigit (n % 16)]

/-- Escape one character of a JSON string the way `json.dumps` does with
`ensure_ascii=True`. -/
def escapeChar (c : Char) : List Char :=
  if c = '"' then ['\\', '"']
  else if c = '\\' then ['\\', '\\']
  else if c = '\n' then ['\\', 'n']
  else if c = '\r' then ['\\', 'r']
  else if c = '\t' then ['\\', 't']
  else if c = '\x08' then ['\\', 'b']
  else if c = '\x0c' then ['\\', 'f']
  else if c.toNat < 0x20 ∨ c.toNat > 0x7e then
    if c.toNat ≤ 0xffff then '\\' :: 'u' :: hex4 c.toNat
    else
      let v := c.toNat - 0x10000
      ('\\' :: 'u' :: hex4 (0xd800 + v / 0x400)) ++
        ('\\' :: 'u' :: hex4 (0xdc00 + v % 0x400))
  else [c]

/-- Serialize a Python string to a JSON string literal. -/
def dumpStr (s : String) : String :=
  ⟨'"' :: (s.data.flatMap escapeChar) ++ ['"']⟩

mutual

/-- Model of `json.dumps` with the defaults used by the client:
separators `", "` and `": "`. -/
def jsonDumps : Json → String
  | .null => "null"
  | .bool true => "true"
  | .bool false => "false"
  | .num n => toString n
  | .fnum raw => raw
  | .str s => dumpStr s
  | .arr xs => "\x5b" ++ dumpsItems xs ++ "\x5d"
  | .obj fs => "\x7b" ++ dumpsMembers fs ++ "\x7d"

/-- Serialize array items, comma-separated. -/
def dumpsItems : List Json → String
  | [] => ""
  | [x] => jsonDumps x
  | x :: rest => jsonDumps x ++ ", " ++ dumpsItems rest

/-- Serialize object members, comma-separated, in insertion order. -/
def dumpsMembers : List (String × Json) → String
  | [] => ""
  | [(k, v)] => dumpStr k ++ ": " ++ jsonDumps v
  | (k, v) :: rest => dumpStr k ++ ": " ++ jsonDumps v ++ ", " ++ dumpsMembers rest

end

/-! ### The request object and the transport call (`send_request`, part 1)

Source, `client_example.py` lines 10–32: build the request dict, start the
server subprocess, serialize the request, print it, and hand the
newline-terminated line to `proc.communicate` with `timeout=30`. -/

/-- The outbound JSON-RPC request record built at the top of
`send_request`. -/
structure Request where
  jsonrpc : String
  id : Int
  method : String
  params : Json

/-- Model of Python's `params or {}`: `None` and falsy values are replaced
by the empty dict. -/
def paramsOrEmpty : Option Json → Json
  | none => Json.obj []
  | some j => if jsonTruthy j then j else Json.obj []

/-- The request `send_request` constructs: `jsonrpc` is always the string
"2.0", `id` is always the integer 1, `params` defaults to the empty
object.  `params = none` models a Python call that omits the argument. -/
def mkRequest (method : String) (params : Option Json) : Request :=
  { jsonrpc := "2.0", id := 1, method := method, params := paramsOrEmpty params }

/-- The request as the JSON object that `json.dumps` receives, fields in
insertion order. -/
def requestToJson (r : Request) : Json :=
  Json.obj [("jsonrpc", Json.str r.jsonrpc), ("id", Json.num r.id),
            ("method", Json.str r.method), ("params", r.params)]

/-- Serialized request text (`request_json` in the source). -/
def requestJsonText (method : String) (params : Option Json) : String :=
  jsonDumps (requestToJson (mkRequest method params))

/-- Everything `send_request` passes to the blocking subprocess wait: the
command line given to `subprocess.Popen`, the text written to the child's
standard input (`request_json + "\n"`), and the `timeout` argument of
`proc.communicate`. -/
structure TransportCall where
  cmdline : List String
  input : String
  timeout : Nat

/-- The transport call made for a given method and params (source lines
20–32). -/
def transportCallOf (method : String) (params : Option Json) : TransportCall :=
  { cmdline := ["cargo", "run", "--release"],
    input := requestJsonText method params ++ "\n",
    timeout := 30 }

/-! ### Response handling (`send_request`, part 2)

Source, `client_example.py` lines 35–43.  The subprocess is opaque; a
`TransportResult` records the stdout and stderr text that
`proc.communicate` returned.  What the user then sees is a list of print
events; the pretty-printed response (`json.dumps(response, indent=2)`) is
recorded as the parsed JSON value itself, since the claims about it are
claims of structural equivalence. -/

/-- The pair `(stdout, stderr)` returned by `proc.communicate`. -/
structure TransportResult where
  stdout : String
  stderr : String

/-- One print event of `send_request`: a plain printed string, or the
pretty-printed response, recorded as the parsed JSON value (the claims
about it are claims of structural equivalence, so
`json.dumps(response, indent=2)` is represented by `response` itself). -/
inductive Output where
  | line : String → Output
  | responseVal : Json → Output

/-- How a `send_request` call ends: either normally, having printed the
recorded events, or by an uncaught `json.JSONDecodeError` raised from
`json.loads` on the recorded text (nothing after that point is
printed in that case). -/
inductive SendResult where
  | ok : List Output → SendResult
  | decodeError : String → SendResult

/-- The `print(f"→ Request: {request_json}\n")` line (source line 30). -/
def requestPrintLine (method : String) (params : Option Json) : Output :=
  Output.line ("→ Request: " ++ requestJsonText method params ++ "\n")

/-- The trailing stderr diagnostic (source lines 42–43): printed only when
stderr is non-empty and contains "error" case-insensitively. -/
def stderrLines (stderr : String) : List Output :=
  if stderr ≠ "" ∧ strHasSub (pyLower stderr) "error" then
    [Output.line ("\nErrors: " ++ stderr)]
  else []

/-- Model of `send_request` (source lines 10–43): print the request line,
then, if the stripped stdout is non-empty, parse it with `json.loads` —
a parse failure propagates as an uncaught exception, skipping every
later print — and pretty-print the response; if the stripped stdout is
empty print "No response received"; finally print the stderr diagnostic
when it applies. -/
def send_request (method : String) (params : Option Json) (tr : TransportResult) :
    SendResult :=
  if pyStrip tr.stdout ≠ "" then
    match jsonLoads (pyStrip tr.stdout) with
    | some response =>
        SendResult.ok (requestPrintLine method params ::
          [Output.line "← Response:", Output.responseVal response] ++
          stderrLines tr.stderr)
    | none => SendResult.decodeError (pyStrip tr.stdout)
  else
    SendResult.ok (requestPrintLine method params ::
      [Output.line "No response received"] ++ stderrLines tr.stderr)

/-- The `send_request` call printed the given text as one of its lines (an
uncaught decode error prints nothing after the raise). -/
def PrintsLine (r : SendResult) (s : String) : Prop :=
  ∃ outs, r = SendResult.ok outs ∧ Output.line s ∈ outs

/-- The `send_request` call printed a response structurally equal to the
given JSON value. -/
def PrintsResponse (r : SendResult) (j : Json) : Prop :=
  ∃ outs, r = SendResult.ok outs ∧ Output.responseVal j ∈ outs

/-! ### The command dispatch (`main`)

Source, `client_example.py` lines 45–116.  `argv` is the full `sys.argv`,
program name included.  The source guards every positional access
`sys.argv[i]` with a `len(sys.argv) < k` check, which the list patterns
below reproduce exactly.  The banner printed at the top of `main` is the
same on every path and is kept separately as `bannerLines`. -/

/-- The banner `main` prints before dispatching. -/
def bannerLines : List String :=
  [String.mk (List.replicate 60 '='), "MCP Server Test Client",
   String.mk (List.replicate 60 '='), ""]

/-- Usage examples printed when no command is given (source lines 52–57). -/
def mainUsageLines : List String :=
  ["Usage examples:",
   "  python client_example.py init",
   "  python client_example.py list",
   "  python client_example.py balance <address>",
   "  python client_example.py price <token_address>",
   "  python client_example.py swap <from> <to> <amount> <wallet>"]

/-- Usage text for `balance` with a missing address (source lines 74–75). -/
def balanceUsageLines : List String :=
  ["Usage: python client_example.py balance <wallet_address>",
   "Example: python client_example.py balance 0xd8dA6BF26964aF9D7eEd9e03E53415D37aA96045"]

/-- Usage text for `price` with a missing token (source lines 87–88). -/
def priceUsageLines : List String :=
  ["Usage: python client_example.py price <token_address>",
   "Example: python client_example.py price 0xA0b86991c6218b36c1d19D4a2e9Eb0cE3606eB48"]

/-- Usage text for `swap` with missing arguments (source lines 100–101). -/
def swapUsageLines : List String :=
  ["Usage: python client_example.py swap <from_token> <to_token> <amount> <wallet_address>",
   "Example: python client_example.py swap 0x0000000000000000000000000000000000000000 0xA0b86991c6218b36c1d19D4a2e9Eb0cE3606eB48 0.1 0xd8dA6BF26964aF9D7eEd9e03E53415D37aA96045"]

/-- How `main` proceeds after the banner: print usage text and return,
print an unknown-command message and return, or call `send_request` with
a method and params.  Only `sendCmd` invokes the transport. -/
inductive MainStep where
  | printUsage : List String → MainStep
  | printUnknown : String → MainStep
  | sendCmd : String → Option Json → MainStep

/-- The fixed params of the `init` command (source lines 63–67). -/
def initParams : Json :=
  Json.obj [("protocolVersion", Json.str "2024-11-05"),
            ("capabilities", Json.obj []),
            ("clientInfo", Json.obj [("name", Json.str "python-client"),
                                     ("version", Json.str "1.0")])]

/-- Params of `balance <wallet_address>` (source lines 78–83). -/
def balanceParams (walletAddress : String) : Json :=
  Json.obj [("name", Json.str "get_balance"),
            ("arguments", Json.obj [("wallet_address", Json.str walletAddress)])]

/-- Params of `price <token_address>` (source lines 91–96). -/
def priceParams (tokenAddress : String) : Json :=
  Json.obj [("name", Json.str "get_token_price"),
            ("arguments", Json.obj [("token_address", Json.str tokenAddress)])]

/-- Params of `swap <from> <to> <amount> <wallet>` (source lines 104–113):
the four positional arguments verbatim plus the fixed
`slippage_bps = 50`. -/
def swapParams (fromToken toToken amount walletAddress : String) : Json :=
  Json.obj [("name", Json.str "swap_tokens"),
            ("arguments",
             Json.obj [("from_token", Json.str fromToken),
                       ("to_token", Json.str toToken),
                       ("amount", Json.str amount),
                       ("wallet_address", Json.str walletAddress),
                       ("slippage_bps", Json.num 50)])]

/-- Dispatch on the command name and the positional arguments after it
(source lines 62–116).  `len(sys.argv) < 3` is `args = []`,
`len(sys.argv) < 6` is `args` having fewer than four elements, and
`sys.argv[2..5]` are the leading elements of `args`; trailing elements
are never consulted. -/
def dispatchCmd (command : String) (args : List String) : MainStep :=
  if command = "init" then
    .sendCmd "initialize" (some initParams)
  else if command = "list" then
    .sendCmd "tools/list" none
  else if command = "balance" then
    match args with
    | [] => .printUsage balanceUsageLines
    | a :: _ => .sendCmd "tools/call" (some (balanceParams a))
  else if command = "price" then
    match args with
    | [] => .printUsage priceUsageLines
    | a :: _ => .sendCmd "tools/call" (some (priceParams a))
  else if command = "swap" then
    match args with
    | f :: t :: amt :: w :: _ => .sendCmd "tools/call" (some (swapParams f t amt w))
    | _ => .printUsage swapUsageLines
  else
    .printUnknown ("Unknown command: " ++ command)

/-- Model of `main` after the banner: with no positional argument
(`len(sys.argv) < 2`) print the usage examples and return, otherwise
dispatch on `sys.argv[1]`. -/
def mainDispatch : List String → MainStep
  | [] => .printUsage mainUsageLines
  | [_] => .printUsage mainUsageLines
  | _ :: command :: args => dispatchCmd command args

/-- Whether a `main` run invokes the transport (starts the subprocess and
sends a request). -/
def sendsRequest : MainStep → Bool
  | .sendCmd _ _ => true
  | _ => false

/-- The request `main` constructs for this argv, when it sends one. -/
def requestFor (argv : List String) : Option Request :=
  match mainDispatch argv with
  | .sendCmd method params => some (mkRequest method params)
  | _ => none

/-- First line of a text, as in "the first line of standard output". -/
def firstLine (s : String) : String :=
  ⟨s.data.takeWhile (· ≠ '\n')⟩

/-! ## Claims -/

/-- C1: for every supported command invoked with exactly the required
number of positional arguments, the constructed request's `method` and
`params` match the fixed table: `init` → `initialize` with the fixed
capability payload, `list` → `tools/list`, `balance` → `tools/call` with
name `get_balance` and the wallet address verbatim, `price` →
`get_token_price` with the token address verbatim, `swap` →
`swap_tokens` with the four arguments verbatim and
`slippage_bps = 50`. -/
theorem c1_request_table (prog addr tok f t amt w : String) :
    requestFor [prog, "init"] =
      some ⟨"2.0", 1, "initialize",
        Json.obj [("protocolVersion", Json.str "2024-11-05"),
                  ("capabilities", Json.obj []),
                  ("clientInfo", Json.obj [("name", Json.str "python-client"),
                                           ("version", Json.str "1.0")])]⟩ ∧
    requestFor [prog, "list"] = some ⟨"2.0", 1, "tools/list", Json.obj []⟩ ∧
    requestFor [prog, "balance", addr] =
      some ⟨"2.0", 1, "tools/call",
        Json.obj [("name", Json.str "get_balance"),
                  ("arguments", Json.obj [("wallet_address", Json.str addr)])]⟩ ∧
    requestFor [prog, "price", tok] =
      some ⟨"2.0", 1, "tools/call",
        Json.obj [("name", Json.str "get_token_price"),
                  ("arguments", Json.obj [("token_address", Json.str tok)])]⟩ ∧
    requestFor [prog, "swap", f, t, amt, w] =
      some ⟨"2.0", 1, "tools/call",
        Json.obj [("name", Json.str "swap_tokens"),
                  ("arguments",
                   Json.obj [("from_token", Json.str f),
                             ("to_token", Json.str t),
                             ("amount", Json.str amt),
                             ("wallet_address", Json.str w),
                             ("slippage_bps", Json.num 50)])]⟩ :=
  ⟨rfl, rfl, rfl, rfl, rfl⟩

/-- C5: every recognized command invoked with fewer than its required
positional arguments prints its usage text and returns without invoking
the transport. -/
theorem c5_missing_args (prog : String) (args : List String) :
    mainDispatch [prog, "balance"] = MainStep.printUsage balanceUsageLines ∧
    sendsRequest (mainDispatch [prog, "balance"]) = false ∧
    mainDispatch [prog, "price"] = MainStep.printUsage priceUsageLines ∧
    sendsRequest (mainDispatch [prog, "price"]) = false ∧
    (args.length < 4 →
      mainDispatch (prog :: "swap" :: args) = MainStep.printUsage swapUsageLines ∧
      sendsRequest (mainDispatch (prog :: "swap" :: args)) = false) := by
  refine ⟨rfl, rfl, rfl, rfl, fun h => ?_⟩
  match args with
  | [] => exact ⟨rfl, rfl⟩
  | [_] => exact ⟨rfl, rfl⟩
  | [_, _] => exact ⟨rfl, rfl⟩
  | [_, _, _] => exact ⟨rfl, rfl⟩
  | _ :: _ :: _ :: _ :: _ => exact absurd h (by simp)

/-- C5 witness: `swap` with one argument prints the swap usage text and
sends nothing. -/
theorem c5_missing_args_witness :
    mainDispatch ["python", "swap", "0xabc"] = MainStep.printUsage swapUsageLines ∧
    sendsRequest (mainDispatch ["python", "swap", "0xabc"]) = false :=
  (c5_missing_args "python" ["0xabc"]).2.2.2.2 (by decide)

/-- C6: every command name outside the five supported ones prints an
"Unknown command" message and does not invoke the transport. -/
theorem c6_unknown_command (prog c : String) (args : List String)
    (h1 : c ≠ "init") (h2 : c ≠ "list") (h3 : c ≠ "balance")
    (h4 : c ≠ "price") (h5 : c ≠ "swap") :
    mainDispatch (prog :: c :: args) =
      MainStep.printUnknown ("Unknown command: " ++ c) ∧
    sendsRequest (mainDispatch (prog :: c :: args)) = false := by
  show dispatchCmd c args = _ ∧ sendsRequest (dispatchCmd c args) = _
  unfold dispatchCmd
  rw [if_neg h1, if_neg h2, if_neg h3, if_neg h4, if_neg h5]
  exact ⟨rfl, rfl⟩

/-- C6 witness: the command `help` is reported as unknown and sends
nothing. -/
theorem c6_unknown_command_witness :
    mainDispatch ["python", "help"] = MainStep.printUnknown "Unknown command: help" ∧
    sendsRequest (mainDispatch ["python", "help"]) = false :=
  c6_unknown_command "python" "help" []
    (by decide) (by decide) (by decide) (by decide) (by decide)

/-- C7: every request `send_request` constructs has `jsonrpc = "2.0"` and
the constant `id = 1`, and the text written to the subprocess is the
serialized request terminated by a newline. -/
theorem c7_fixed_header_and_newline (method : String) (params : Option Json) :
    (mkRequest method params).jsonrpc = "2.0" ∧
    (mkRequest method params).id = 1 ∧
    ∃ s, (transportCallOf method params).input = s ++ "\n" :=
  ⟨rfl, rfl, requestJsonText method params, rfl⟩

/-- C8: every invocation that sends a request waits on the subprocess with
the fixed timeout constant 30. -/
theorem c8_timeout_constant (argv : List String) (method : String)
    (params : Option Json) (_h : mainDispatch argv = MainStep.sendCmd method params) :
    (transportCallOf method params).timeout = 30 :=
  rfl

/-- C8 witness: the `list` command sends a request, and its transport call
carries timeout 30. -/
theorem c8_timeout_constant_witness :
    mainDispatch ["python", "list"] = MainStep.sendCmd "tools/list" none ∧
    (transportCallOf "tools/list" none).timeout = 30 :=
  ⟨rfl, c8_timeout_constant ["python", "list"] "tools/list" none rfl⟩

/-- C9: invoked with no command at all, the tool prints the usage examples
for all five commands and returns without invoking the transport. -/
theorem c9_no_command_usage (prog : String) :
    mainDispatch [prog] = MainStep.printUsage mainUsageLines ∧
    sendsRequest (mainDispatch [prog]) = false ∧
    mainDispatch [] = MainStep.printUsage mainUsageLines ∧
    "  python client_example.py init" ∈ mainUsageLines ∧
    "  python client_example.py list" ∈ mainUsageLines ∧
    "  python client_example.py balance <address>" ∈ mainUsageLines ∧
    "  python client_example.py price <token_address>" ∈ mainUsageLines ∧
    "  python client_example.py swap <from> <to> <amount> <wallet>" ∈ mainUsageLines :=
  ⟨rfl, rfl, rfl, by decide, by decide, by decide, by decide, by decide⟩

/-- C10: trailing extra positional arguments beyond a command's required
count never change the request payload sent to the transport. -/
theorem c10_extra_args_ignored (prog addr tok f t amt w : String)
    (extra extra' : List String) :
    requestFor (prog :: "init" :: extra) = requestFor (prog :: "init" :: extra') ∧
    requestFor (prog :: "list" :: extra) = requestFor (prog :: "list" :: extra') ∧
    requestFor (prog :: "balance" :: addr :: extra) =
      requestFor (prog :: "balance" :: addr :: extra') ∧
    requestFor (prog :: "price" :: tok :: extra) =
      requestFor (prog :: "price" :: tok :: extra') ∧
    requestFor (prog :: "swap" :: f :: t :: amt :: w :: extra) =
      requestFor (prog :: "swap" :: f :: t :: amt :: w :: extra') :=
  ⟨rfl, rfl, rfl, rfl, rfl⟩

/-! ### Shape lemmas for `send_request` -/

/-- With empty (or whitespace-only) stdout, `send_request` prints the
request line, "No response received", and the stderr diagnostic when it
applies. -/
lemma send_request_of_empty (method : String) (params : Option Json)
    (tr : TransportResult) (h : pyStrip tr.stdout = "") :
    send_request method params tr =
      SendResult.ok (requestPrintLine method params ::
        [Output.line "No response received"] ++ stderrLines tr.stderr) := by
  unfold send_request
  rw [if_neg (by simp [h])]

/-- With stdout whose stripped text parses as JSON, `send_request` prints
the request line, "← Response:", the parsed value, and the stderr
diagnostic when it applies. -/
lemma send_request_of_parse (method : String) (params : Option Json)
    (tr : TransportResult) (j : Json) (h : jsonLoads (pyStrip tr.stdout) = some j) :
    send_request method params tr =
      SendResult.ok (requestPrintLine method params ::
        [Output.line "← Response:", Output.responseVal j] ++
        stderrLines tr.stderr) := by
  have hne : pyStrip tr.stdout ≠ "" := by
    intro he
    rw [he] at h
    exact Option.noConfusion h
  unfold send_request
  rw [if_pos hne, h]

/-- With non-empty stdout whose stripped text is not JSON, `send_request`
ends in an uncaught `json.JSONDecodeError` and prints nothing further. -/
lemma send_request_of_bad_json (method : String) (params : Option Json)
    (tr : TransportResult) (hne : pyStrip tr.stdout ≠ "")
    (h : jsonLoads (pyStrip tr.stdout) = none) :
    send_request method params tr = SendResult.decodeError (pyStrip tr.stdout) := by
  unfold send_request
  rw [if_pos hne, h]

/-- A run that ends in an uncaught decode error prints no line. -/
lemma noPrintsOnDecodeError (s t : String) :
    ¬ PrintsLine (SendResult.decodeError s) t := by
  rintro ⟨outs, h, -⟩
  exact SendResult.noConfusion h

/-- A run that ends in an uncaught decode error prints no response. -/
lemma noResponseOnDecodeError (s : String) (j : Json) :
    ¬ PrintsResponse (SendResult.decodeError s) j := by
  rintro ⟨outs, h, -⟩
  exact SendResult.noConfusion h

/-- C2 counterexample: `notjson` is non-empty, non-JSON standard output,
and the tool does not print "No response received" for it — `json.loads`
raises an uncaught `JSONDecodeError` instead. -/
theorem c2_counterexample :
    pyStrip "notjson" ≠ "" ∧
    jsonLoads "notjson" = none ∧
    send_request "tools/list" none ⟨"notjson", ""⟩ = SendResult.decodeError "notjson" ∧
    ¬ PrintsLine (send_request "tools/list" none ⟨"notjson", ""⟩) "No response received" :=
  ⟨by decide, rfl, rfl, by exact noPrintsOnDecodeError "notjson" "No response received"⟩

/-- C2 amended: only empty (or whitespace-only) standard output is reported
with "No response received"; non-empty standard output that is not
parseable as JSON instead raises an uncaught `json.JSONDecodeError` from
`json.loads`, printing nothing further. -/
theorem c2_no_response_message (method : String) (params : Option Json)
    (tr : TransportResult) :
    (pyStrip tr.stdout = "" →
      PrintsLine (send_request method params tr) "No response received") ∧
    (pyStrip tr.stdout ≠ "" → jsonLoads (pyStrip tr.stdout) = none →
      send_request method params tr = SendResult.decodeError (pyStrip tr.stdout)) := by
  constructor
  · intro h
    exact ⟨_, send_request_of_empty method params tr h, by simp⟩
  · exact send_request_of_bad_json method params tr

/-- C2 witness: empty stdout yields the message; the non-JSON text `notx`
yields the uncaught decode error. -/
theorem c2_no_response_message_witness :
    PrintsLine (send_request "tools/list" none ⟨"", ""⟩) "No response received" ∧
    send_request "tools/list" none ⟨"notx", ""⟩ =
      SendResult.decodeError (pyStrip "notx") :=
  ⟨(c2_no_response_message "tools/list" none ⟨"", ""⟩).1 rfl,
   (c2_no_response_message "tools/list" none ⟨"notx", ""⟩).2 (by decide) rfl⟩

/-- C3 counterexample: with standard error containing "error"
case-insensitively but standard output non-empty and malformed
(`x`), the decode error from `json.loads` propagates before the stderr
check, so the stderr text is not printed — refuting "regardless of the
content of standard output". -/
theorem c3_counterexample :
    strHasSub (pyLower "Error: boom") "error" = true ∧
    send_request "tools/list" none ⟨"x", "Error: boom"⟩ = SendResult.decodeError "x" ∧
    ¬ PrintsLine (send_request "tools/list" none ⟨"x", "Error: boom"⟩)
        ("\nErrors: Error: boom") :=
  ⟨by decide, rfl, by exact noPrintsOnDecodeError "x" ("\nErrors: Error: boom")⟩

/-- C3 amended: standard error containing "error" case-insensitively is
echoed to the user whenever standard output is empty or parses as JSON;
when standard output is non-empty malformed JSON the uncaught decode
error propagates first and the stderr text is not printed. -/
theorem c3_stderr_echo (method : String) (params : Option Json)
    (tr : TransportResult) (hs : tr.stderr ≠ "")
    (he : strHasSub (pyLower tr.stderr) "error" = true)
    (hout : pyStrip tr.stdout = "" ∨ ∃ j, jsonLoads (pyStrip tr.stdout) = some j) :
    PrintsLine (send_request method params tr) ("\nErrors: " ++ tr.stderr) := by
  have hstderr : stderrLines tr.stderr = [Output.line ("\nErrors: " ++ tr.stderr)] := by
    unfold stderrLines
    rw [if_pos ⟨hs, he⟩]
  rcases hout with h | ⟨j, h⟩
  · rw [send_request_of_empty method params tr h, hstderr]
    exact ⟨_, rfl, by simp⟩
  · rw [send_request_of_parse method params tr j h, hstderr]
    exact ⟨_, rfl, by simp⟩

/-- C3 witness: empty stdout with stderr `Error: x` echoes the stderr
text. -/
theorem c3_stderr_echo_witness :
    PrintsLine (send_request "tools/list" none ⟨"", "Error: x"⟩)
      ("\nErrors: Error: x") :=
  c3_stderr_echo "tools/list" none ⟨"", "Error: x"⟩ (by decide) (by decide)
    (Or.inl rfl)

/-- C4 counterexample: for the two-line standard output `[]\n[]` the first
line `[]` is valid JSON, but the tool parses the whole stripped output,
which fails, so it raises an uncaught decode error and prints no
structural equivalent of the first line. -/
theorem c4_counterexample :
    firstLine "[]\n[]" = "[]" ∧
    jsonLoads (firstLine "[]\n[]") = some (Json.arr []) ∧
    send_request "tools/list" none ⟨"[]\n[]", ""⟩ =
      SendResult.decodeError "[]\n[]" ∧
    ¬ PrintsResponse (send_request "tools/list" none ⟨"[]\n[]", ""⟩)
        (Json.arr []) :=
  ⟨rfl, rfl, rfl,
   by exact noResponseOnDecodeError "[]\n[]" (Json.arr [])⟩

/-- C4 amended: the tool parses the entire stripped standard output (not
just its first line) as JSON; whenever that parse succeeds, it prints a
pretty-printed structural equivalent of the parsed value. -/
theorem c4_pretty_print_response (method : String) (params : Option Json)
    (tr : TransportResult) (j : Json)
    (h : jsonLoads (pyStrip tr.stdout) = some j) :
    PrintsResponse (send_request method params tr) j := by
  rw [send_request_of_parse method params tr j h]
  exact ⟨_, rfl, by simp⟩

/-- C4 witness: stdout ` [1, 2] ` is parsed and the value `[1, 2]` is
printed back. -/
theorem c4_pretty_print_response_witness :
    PrintsResponse (send_request "tools/list" none ⟨" [1, 2] ", ""⟩)
      (Json.arr [Json.num 1, Json.num 2]) :=
  c4_pretty_print_response "tools/list" none ⟨" [1, 2] ", ""⟩
    (Json.arr [Json.num 1, Json.num 2]) rfl
